import Mathlib

/-!
Verification of the Clarity PPM portfolio health assessment engine.

The development shallowly embeds the two Python modules:
* `Clarity_api_server.py` — the mock Clarity PPM data provider: the five
  hardcoded project records (`PROJECTS_DATA`), the by-id lookup
  (`get_project`) and the portfolio aggregates (`get_portfolio_health`).
* `Claude_desktop_automation.py` — the analyzer: the three per-dimension
  threshold assessors (`_assess_scope`, `_assess_budget`, `_assess_timeline`),
  the concern identifier (`_identify_key_concerns`), the recommendation
  generator (`_generate_recommendations`) and the portfolio timeline analysis
  (`_analyze_portfolio_timeline`).

Monetary amounts, percentages and day variances are modelled as rationals
(the Python code uses exact comparisons against integer thresholds, so ℚ is a
faithful carrier for every value the code manipulates).  The narrative strings
the assessors return are modelled structurally: each assessor returns a tagged
value carrying its tier label (the leading word of the Python f-string) and
the numeric values the narrative reports.
-/

namespace Clarity

/-- The `budget` sub-object of a Clarity project record. -/
structure Budget where
  total : ℚ
  spent : ℚ
  remaining : ℚ
  variance : ℚ
  variance_percentage : ℚ
deriving DecidableEq

/-- The `schedule` sub-object of a Clarity project record. -/
structure Schedule where
  planned_duration_days : ℤ
  actual_duration_days : ℤ
  percent_complete : ℚ
  variance_days : ℚ
  milestone_completion : String
deriving DecidableEq

/-- The `scope` sub-object of a Clarity project record. -/
structure Scope where
  original_scope_items : ℕ
  completed_items : ℕ
  in_progress_items : ℕ
  pending_items : ℕ
  scope_changes : ℕ
  scope_variance_percentage : ℚ
deriving DecidableEq

/-- The `health` sub-object of a Clarity project record: four categorical
status labels plus the numeric health score. -/
structure Health where
  overall_status : String
  scope_status : String
  budget_status : String
  schedule_status : String
  health_score : ℚ
deriving DecidableEq

/-- The `risks` sub-object of a Clarity project record. -/
structure Risks where
  total : ℕ
  critical : ℕ
  high : ℕ
  medium : ℕ
  low : ℕ
deriving DecidableEq

/-- The `team` sub-object of a Clarity project record. -/
structure Team where
  size : ℕ
  utilization : ℚ
deriving DecidableEq

/-- One Clarity PPM project record, as served by the mock API. -/
structure Project where
  id : String
  name : String
  code : String
  manager : String
  sponsor : String
  department : String
  priority : String
  start_date : String
  planned_end_date : String
  current_end_date : String
  budget : Budget
  schedule : Schedule
  scope : Scope
  health : Health
  risks : Risks
  team : Team
deriving DecidableEq

/-! ### The three per-dimension assessors (`Claude_desktop_automation.py`) -/

/-- Result of `_assess_scope`: the narrative's tier and the values it
reports. -/
inductive ScopeAssessment where
  | critical (variance : ℚ) (changes : ℕ)
  | warning (variance : ℚ) (changes : ℕ)
  | healthy (variance : ℚ)
deriving DecidableEq

/-- The leading tier word of the scope narrative string. -/
def ScopeAssessment.tier : ScopeAssessment → String
  | .critical _ _ => "CRITICAL"
  | .warning _ _ => "WARNING"
  | .healthy _ => "HEALTHY"

/-- `_assess_scope(variance, changes)`: `if variance > 15 … elif variance > 5
… else …`. -/
def assess_scope (variance : ℚ) (changes : ℕ) : ScopeAssessment :=
  if variance > 15 then .critical variance changes
  else if variance > 5 then .warning variance changes
  else .healthy variance

/-- Result of `_assess_budget`: the narrative's tier and the values it
reports (the warning narrative also reports the utilization). -/
inductive BudgetAssessment where
  | critical (overrunPct : ℚ)
  | warning (overrunPct : ℚ) (utilization : ℚ)
  | healthy (variancePct : ℚ)
deriving DecidableEq

/-- The leading tier word of the budget narrative string. -/
def BudgetAssessment.tier : BudgetAssessment → String
  | .critical _ => "CRITICAL"
  | .warning _ _ => "WARNING"
  | .healthy _ => "HEALTHY"

/-- `_assess_budget(variance_pct, spent, total)`: computes
`utilization = spent / total * 100`, then
`if variance_pct < -5 … elif variance_pct < 0 … else …`. -/
def assess_budget (variance_pct spent total : ℚ) : BudgetAssessment :=
  let utilization := spent / total * 100
  if variance_pct < -5 then .critical |variance_pct|
  else if variance_pct < 0 then .warning |variance_pct| utilization
  else .healthy variance_pct

/-- Result of `_assess_timeline`: the narrative's tier and the values it
reports. -/
inductive TimelineAssessment where
  | critical (daysBehind : ℚ) (completion : ℚ)
  | warning (daysBehind : ℚ) (completion : ℚ)
  | ahead (daysAhead : ℚ)
  | onTrack (completion : ℚ)
deriving DecidableEq

/-- The leading tier words of the timeline narrative string. -/
def TimelineAssessment.tier : TimelineAssessment → String
  | .critical _ _ => "CRITICAL"
  | .warning _ _ => "WARNING"
  | .ahead _ => "AHEAD"
  | .onTrack _ => "ON TRACK"

/-- `_assess_timeline(variance_days, completion)`: `if variance_days < -20 …
elif variance_days < -5 … elif variance_days > 5 … else …`. -/
def assess_timeline (variance_days completion : ℚ) : TimelineAssessment :=
  if variance_days < -20 then .critical |variance_days| completion
  else if variance_days < -5 then .warning |variance_days| completion
  else if variance_days > 5 then .ahead variance_days
  else .onTrack completion

/-! ### Portfolio-level analysis (`Claude_desktop_automation.py`) -/

/-- The project lists `generate_insights` computes before calling the concern
identifier and the recommendation generator:
`critical_projects = [p for p in self.projects if p['health']['overall_status'] == 'Critical']`. -/
def criticalProjects (projects : List Project) : List Project :=
  projects.filter (fun p => p.health.overall_status == "Critical")

/-- `at_risk_projects = [p for p in self.projects if
p['health']['overall_status'] == 'At Risk']` in `generate_insights`. -/
def atRiskProjects (projects : List Project) : List Project :=
  projects.filter (fun p => p.health.overall_status == "At Risk")

/-- One entry of the list `_identify_key_concerns` builds. -/
structure Concern where
  severity : String
  concern : String
  details : String
  action : String
deriving DecidableEq

/-- `_identify_key_concerns(critical, at_risk)`: appends, in this order, a
critical-projects concern when `critical` is nonempty, an at-risk concern when
`at_risk` is nonempty, and a budget-overrun concern when some project of
`self.projects` has `budget.variance < -10000`.  The Python list-append
sequence is rendered as a concatenation of zero-or-one-element lists. -/
def identify_key_concerns (projects critical at_risk : List Project) :
    List Concern :=
  (if critical = [] then [] else
    [{ severity := "Critical"
       concern := toString critical.length ++
         " Critical Projects Requiring Immediate Attention"
       details := "Projects in critical status: " ++
         String.intercalate ", " (critical.map (·.name))
       action := "Executive review and intervention required within 48 hours" }])
  ++ (if at_risk = [] then [] else
    [{ severity := "High"
       concern := toString at_risk.length ++ " Projects At Risk"
       details := "At-risk projects: " ++
         String.intercalate ", " (at_risk.map (·.name))
       action := "Enhanced monitoring and corrective action plans needed" }])
  ++ (let budget_issues := projects.filter (fun p => p.budget.variance < -10000)
      if budget_issues = [] then [] else
        [{ severity := "High"
           concern := "Significant Budget Overruns"
           details := toString budget_issues.length ++
             " projects with budget variance exceeding $10K"
           action := "Financial review and budget reforecast required" }])

/-- The concern list `generate_insights` produces for a project collection:
`_identify_key_concerns` applied to the critical and at-risk filters of the
same collection. -/
def key_concerns_for (projects : List Project) : List Concern :=
  identify_key_concerns projects (criticalProjects projects)
    (atRiskProjects projects)

/-- One entry of the list `_generate_recommendations` builds. -/
structure Recommendation where
  priority : ℕ
  recommendation : String
  rationale : String
  actions : List String
  timeline : String
deriving DecidableEq

/-- `_generate_recommendations(critical, at_risk)`: appends the priority-1
recommendation when `critical` is nonempty, the priority-2 recommendation when
`len(at_risk) > 1`, and the priority-3 recommendation when
`self.portfolio_health['budget']['projects_over_budget'] > 2` (the aggregate
count supplied by the data provider). -/
def generate_recommendations (critical at_risk : List Project)
    (projects_over_budget : ℕ) : List Recommendation :=
  (if critical = [] then [] else
    [{ priority := 1
       recommendation := "Emergency Portfolio Review"
       rationale := toString critical.length ++
         " projects in critical status requiring immediate executive intervention"
       actions :=
         ["Schedule emergency steering committee meeting within 48 hours",
          "Develop recovery plans for each critical project",
          "Assess resource reallocation options",
          "Determine go/no-go decisions"]
       timeline := "Immediate (Within 48 hours)" }])
  ++ (if at_risk.length > 1 then
    [{ priority := 2
       recommendation := "Enhanced Project Monitoring"
       rationale := toString at_risk.length ++
         " at-risk projects need closer oversight"
       actions :=
         ["Increase reporting frequency to weekly",
          "Assign executive sponsors to at-risk projects",
          "Implement early warning indicators",
          "Review and update risk mitigation plans"]
       timeline := "Within 1 week" }] else [])
  ++ (if projects_over_budget > 2 then
    [{ priority := 3
       recommendation := "Portfolio Budget Reforecast"
       rationale :=
         "Multiple projects over budget indicating systemic estimation issues"
       actions :=
         ["Conduct comprehensive budget review",
          "Update forecast-to-complete estimates",
          "Identify potential funding gaps",
          "Implement tighter cost controls"]
       timeline := "Within 2 weeks" }] else [])

/-- `projects_over_budget` of `get_portfolio_health` in
`Clarity_api_server.py`: the number of projects with `budget.variance < 0`. -/
def projects_over_budget (projects : List Project) : ℕ :=
  (projects.filter (fun p => p.budget.variance < 0)).length

/-- `projects_behind_schedule` of `get_portfolio_health` in
`Clarity_api_server.py`: the number of projects with
`schedule.variance_days < 0`. -/
def projects_behind_schedule (projects : List Project) : ℕ :=
  (projects.filter (fun p => p.schedule.variance_days < 0)).length

/-- The recommendation list `generate_insights` produces for a project
collection when the data provider's health aggregate was computed over the
same collection: `_generate_recommendations` applied to the critical and
at-risk filters and the provider's over-budget count. -/
def recommendations_for (projects : List Project) : List Recommendation :=
  generate_recommendations (criticalProjects projects)
    (atRiskProjects projects) (projects_over_budget projects)

/-- The result of `_analyze_portfolio_timeline` (its
`average_variance_days` field is the precomputed aggregate read from
`self.portfolio_health`, supplied here as the `avg_variance` parameter). -/
structure TimelineAnalysis where
  summary : String
  projects_behind : ℕ
  average_variance_days : ℚ
  projects_with_issues : List String
  recommendation : String
deriving DecidableEq

/-- `_analyze_portfolio_timeline`: filters projects with
`schedule.variance_days < -5` and reports their count and names. -/
def analyze_portfolio_timeline (projects : List Project) (avg_variance : ℚ) :
    TimelineAnalysis :=
  let behind_schedule := projects.filter (fun p => p.schedule.variance_days < -5)
  { summary := toString behind_schedule.length ++
      " projects significantly behind schedule (>5 days)"
    projects_behind := behind_schedule.length
    average_variance_days := avg_variance
    projects_with_issues := behind_schedule.map (·.name)
    recommendation := if behind_schedule.length > 2 then
        "Resource reallocation assessment required"
      else "Schedule performance acceptable" }

/-! ### The mock data provider (`Clarity_api_server.py`) -/

/-- Record `PRJ001` of `PROJECTS_DATA`. -/
def prj001 : Project :=
  { id := "PRJ001", name := "Digital Transformation Initiative"
    code := "DTI-2024", manager := "John Smith", sponsor := "Sarah Williams"
    department := "IT", priority := "High"
    start_date := "2024-01-15", planned_end_date := "2025-06-30"
    current_end_date := "2025-07-12"
    budget := { total := 750000, spent := 625000, remaining := 125000
                variance := -30000, variance_percentage := -4.0 }
    schedule := { planned_duration_days := 532, actual_duration_days := 544
                  percent_complete := 68, variance_days := -12
                  milestone_completion := "8/12" }
    scope := { original_scope_items := 45, completed_items := 28
               in_progress_items := 12, pending_items := 5
               scope_changes := 3, scope_variance_percentage := 6.7 }
    health := { overall_status := "At Risk", scope_status := "Yellow"
                budget_status := "Red", schedule_status := "Yellow"
                health_score := 65 }
    risks := { total := 5, critical := 2, high := 1, medium := 1, low := 1 }
    team := { size := 15, utilization := 85 } }

/-- Record `PRJ002` of `PROJECTS_DATA`. -/
def prj002 : Project :=
  { id := "PRJ002", name := "Cloud Migration Project"
    code := "CMP-2024", manager := "Michael Chen", sponsor := "David Brown"
    department := "Infrastructure", priority := "High"
    start_date := "2024-03-01", planned_end_date := "2025-03-31"
    current_end_date := "2025-03-28"
    budget := { total := 450000, spent := 280000, remaining := 170000
                variance := 15000, variance_percentage := 3.3 }
    schedule := { planned_duration_days := 365, actual_duration_days := 362
                  percent_complete := 72, variance_days := 3
                  milestone_completion := "6/8" }
    scope := { original_scope_items := 32, completed_items := 23
               in_progress_items := 7, pending_items := 2
               scope_changes := 1, scope_variance_percentage := 3.1 }
    health := { overall_status := "On Track", scope_status := "Green"
                budget_status := "Green", schedule_status := "Green"
                health_score := 88 }
    risks := { total := 2, critical := 0, high := 0, medium := 1, low := 1 }
    team := { size := 12, utilization := 78 } }

/-- Record `PRJ003` of `PROJECTS_DATA`. -/
def prj003 : Project :=
  { id := "PRJ003", name := "Customer Portal Redesign"
    code := "CPR-2024", manager := "Emily Rodriguez", sponsor := "Robert Taylor"
    department := "Marketing", priority := "Critical"
    start_date := "2024-02-01", planned_end_date := "2024-11-30"
    current_end_date := "2024-12-25"
    budget := { total := 320000, spent := 305000, remaining := 15000
                variance := -20000, variance_percentage := -6.25 }
    schedule := { planned_duration_days := 303, actual_duration_days := 328
                  percent_complete := 85, variance_days := -25
                  milestone_completion := "8/10" }
    scope := { original_scope_items := 28, completed_items := 22
               in_progress_items := 4, pending_items := 7
               scope_changes := 5, scope_variance_percentage := 17.9 }
    health := { overall_status := "Critical", scope_status := "Red"
                budget_status := "Red", schedule_status := "Red"
                health_score := 42 }
    risks := { total := 8, critical := 4, high := 2, medium := 1, low := 1 }
    team := { size := 10, utilization := 95 } }

/-- Record `PRJ004` of `PROJECTS_DATA`. -/
def prj004 : Project :=
  { id := "PRJ004", name := "Data Warehouse Modernization"
    code := "DWM-2024", manager := "James Wilson", sponsor := "Linda Martinez"
    department := "Data Analytics", priority := "Medium"
    start_date := "2024-04-15", planned_end_date := "2025-08-15"
    current_end_date := "2025-08-15"
    budget := { total := 580000, spent := 385000, remaining := 195000
                variance := 15000, variance_percentage := 2.6 }
    schedule := { planned_duration_days := 488, actual_duration_days := 488
                  percent_complete := 55, variance_days := 0
                  milestone_completion := "8/15" }
    scope := { original_scope_items := 52, completed_items := 28
               in_progress_items := 18, pending_items := 6
               scope_changes := 2, scope_variance_percentage := 3.8 }
    health := { overall_status := "On Track", scope_status := "Green"
                budget_status := "Green", schedule_status := "Green"
                health_score := 92 }
    risks := { total := 3, critical := 1, high := 0, medium := 1, low := 1 }
    team := { size := 18, utilization := 68 } }

/-- Record `PRJ005` of `PROJECTS_DATA`. -/
def prj005 : Project :=
  { id := "PRJ005", name := "Mobile App Development"
    code := "MAD-2024", manager := "Amanda Lee", sponsor := "Thomas Anderson"
    department := "Product", priority := "High"
    start_date := "2024-05-01", planned_end_date := "2025-02-28"
    current_end_date := "2025-03-08"
    budget := { total := 420000, spent := 310000, remaining := 110000
                variance := -5000, variance_percentage := -1.2 }
    schedule := { planned_duration_days := 304, actual_duration_days := 312
                  percent_complete := 62, variance_days := -8
                  milestone_completion := "5/9" }
    scope := { original_scope_items := 38, completed_items := 23
               in_progress_items := 11, pending_items := 8
               scope_changes := 4, scope_variance_percentage := 10.5 }
    health := { overall_status := "At Risk", scope_status := "Yellow"
                budget_status := "Yellow", schedule_status := "Yellow"
                health_score := 58 }
    risks := { total := 4, critical := 1, high := 1, medium := 1, low := 1 }
    team := { size := 14, utilization := 82 } }

/-- The fixed collection `PROJECTS_DATA` served by the mock API. -/
def PROJECTS_DATA : List Project := [prj001, prj002, prj003, prj004, prj005]

/-- Outcome of an API query: the success envelope with its payload, or the
distinct error envelope (`"success": False`, HTTP 404) with its error
message. -/
inductive ApiResult (α : Type) where
  | success (data : α)
  | notFound (error : String)
deriving DecidableEq

/-- `get_project(project_id)`:
`next((p for p in PROJECTS_DATA if p['id'] == project_id), None)`, wrapped in
the success envelope when found and the 404 error envelope otherwise. -/
def get_project (project_id : String) : ApiResult Project :=
  match PROJECTS_DATA.find? (fun p => p.id == project_id) with
  | some p => .success p
  | none => .notFound "Project not found"

/-! ### Theorems -/

set_option linter.unnecessarySeqFocus false

/-- C1: for every scope variance `v` and change count `c`, `_assess_scope`
returns a CRITICAL-tier narrative iff `v > 15`, a WARNING-tier narrative iff
`5 < v ≤ 15`, and a HEALTHY-tier narrative iff `v ≤ 5`; in particular `v = 5`
yields HEALTHY and `v = 15` yields WARNING. -/
theorem assess_scope_spec (v : ℚ) (c : ℕ) :
    ((assess_scope v c).tier = "CRITICAL" ↔ 15 < v)
    ∧ ((assess_scope v c).tier = "WARNING" ↔ 5 < v ∧ v ≤ 15)
    ∧ ((assess_scope v c).tier = "HEALTHY" ↔ v ≤ 5)
    ∧ (assess_scope 5 c).tier = "HEALTHY"
    ∧ (assess_scope 15 c).tier = "WARNING" := by
  unfold assess_scope
  refine ⟨?_, ?_, ?_, by norm_num [ScopeAssessment.tier],
    by norm_num [ScopeAssessment.tier]⟩ <;>
  split_ifs with h1 h2 <;> simp_all [ScopeAssessment.tier] <;> linarith

/-- C2: for every budget variance percentage `p` with positive total budget,
`_assess_budget` returns a CRITICAL-tier narrative iff `p < -5`, a
WARNING-tier narrative — reporting utilization `spent / total * 100` — iff
`-5 ≤ p < 0`, and a HEALTHY-tier narrative iff `p ≥ 0`; in particular
`p = -5` yields WARNING, not CRITICAL. -/
theorem assess_budget_spec (p spent total : ℚ) (_htotal : 0 < total) :
    ((assess_budget p spent total).tier = "CRITICAL" ↔ p < -5)
    ∧ ((assess_budget p spent total).tier = "WARNING" ↔ -5 ≤ p ∧ p < 0)
    ∧ ((assess_budget p spent total).tier = "HEALTHY" ↔ 0 ≤ p)
    ∧ (-5 ≤ p ∧ p < 0 →
        assess_budget p spent total = .warning |p| (spent / total * 100))
    ∧ (assess_budget (-5) spent total).tier = "WARNING" := by
  unfold assess_budget
  refine ⟨?_, ?_, ?_, ?_, by norm_num [BudgetAssessment.tier]⟩ <;>
  split_ifs with h1 h2 <;> simp_all [BudgetAssessment.tier] <;> linarith

/-- Witness for C2: at `p = -2`, `spent = 50`, `total = 100` the budget
assessor yields the WARNING tier with utilization 50. -/
theorem assess_budget_spec_witness :
    assess_budget (-2 : ℚ) 50 100 = .warning 2 50 := by
  have h := (assess_budget_spec (-2) 50 100 (by norm_num)).2.2.2.1
    ⟨by norm_num, by norm_num⟩
  simpa using h

/-- C3: for every schedule variance `d` (days) and completion percentage `c`,
`_assess_timeline` returns a CRITICAL-tier narrative iff `d < -20`, a
WARNING-tier narrative iff `-20 ≤ d < -5`, an AHEAD-tier narrative iff
`d > 5`, and an ON TRACK-tier narrative iff `-5 ≤ d ≤ 5`; in particular
`d = -5` yields ON TRACK. -/
theorem assess_timeline_spec (d comp : ℚ) :
    ((assess_timeline d comp).tier = "CRITICAL" ↔ d < -20)
    ∧ ((assess_timeline d comp).tier = "WARNING" ↔ -20 ≤ d ∧ d < -5)
    ∧ ((assess_timeline d comp).tier = "AHEAD" ↔ 5 < d)
    ∧ ((assess_timeline d comp).tier = "ON TRACK" ↔ -5 ≤ d ∧ d ≤ 5)
    ∧ (assess_timeline (-5) comp).tier = "ON TRACK" := by
  unfold assess_timeline
  refine ⟨?_, ?_, ?_, ?_, by norm_num [TimelineAssessment.tier]⟩ <;>
  split_ifs with h1 h2 h3 <;> simp_all [TimelineAssessment.tier] <;>
    intros <;> linarith

/-- The critical-projects filter is empty exactly when no project of the
collection has overall status `"Critical"`. -/
theorem criticalProjects_eq_nil (ps : List Project) :
    criticalProjects ps = [] ↔ ¬ ∃ p ∈ ps, p.health.overall_status = "Critical" := by
  simp [criticalProjects, List.filter_eq_nil_iff]

/-- The at-risk filter is empty exactly when no project of the collection has
overall status `"At Risk"`. -/
theorem atRiskProjects_eq_nil (ps : List Project) :
    atRiskProjects ps = [] ↔ ¬ ∃ p ∈ ps, p.health.overall_status = "At Risk" := by
  simp [atRiskProjects, List.filter_eq_nil_iff]

/-- C5: the concern identifier produces, in this fixed order, (1) a
Critical-severity concern naming all Critical-status projects iff one exists,
(2) a High-severity concern naming all At-Risk projects iff one exists, (3) a
High-severity budget-overrun concern iff some project has budget variance
amount < -10000; a concern with a false condition is absent, not emitted
empty. -/
theorem identify_key_concerns_spec (ps : List Project) :
    key_concerns_for ps =
      (if ∃ p ∈ ps, p.health.overall_status = "Critical" then
        [{ severity := "Critical"
           concern := toString (criticalProjects ps).length ++
             " Critical Projects Requiring Immediate Attention"
           details := "Projects in critical status: " ++
             String.intercalate ", " ((criticalProjects ps).map (·.name))
           action := "Executive review and intervention required within 48 hours" }]
       else [])
      ++ (if ∃ p ∈ ps, p.health.overall_status = "At Risk" then
        [{ severity := "High"
           concern := toString (atRiskProjects ps).length ++ " Projects At Risk"
           details := "At-risk projects: " ++
             String.intercalate ", " ((atRiskProjects ps).map (·.name))
           action := "Enhanced monitoring and corrective action plans needed" }]
       else [])
      ++ (if ∃ p ∈ ps, p.budget.variance < -10000 then
        [{ severity := "High"
           concern := "Significant Budget Overruns"
           details :=
             toString (ps.filter (fun p => p.budget.variance < -10000)).length ++
               " projects with budget variance exceeding $10K"
           action := "Financial review and budget reforecast required" }]
       else []) := by
  have hc : (∃ p ∈ ps, p.health.overall_status = "Critical") ↔
      ¬ criticalProjects ps = [] := by
    rw [criticalProjects_eq_nil]; exact (not_not).symm
  have ha : (∃ p ∈ ps, p.health.overall_status = "At Risk") ↔
      ¬ atRiskProjects ps = [] := by
    rw [atRiskProjects_eq_nil]; exact (not_not).symm
  have hb : (∃ p ∈ ps, p.budget.variance < -10000) ↔
      ¬ ps.filter (fun p => p.budget.variance < -10000) = [] := by
    rw [List.filter_eq_nil_iff]; simp
  simp only [key_concerns_for, identify_key_concerns, hc, ha, hb]
  split_ifs <;> simp_all

/-- C4: the recommendation generator emits priority 1 iff some project has
overall status `"Critical"`, priority 2 iff strictly more than one project
has overall status `"At Risk"`, and priority 3 iff the data provider's
over-budget count (projects with negative budget variance) exceeds 2; the
three triggers are independent, the list is ordered by ascending priority
number, and with no trigger fired the list is empty. -/
theorem generate_recommendations_spec (ps : List Project) :
    ((∃ r ∈ recommendations_for ps, r.priority = 1) ↔
      ∃ p ∈ ps, p.health.overall_status = "Critical")
    ∧ ((∃ r ∈ recommendations_for ps, r.priority = 2) ↔
      1 < (atRiskProjects ps).length)
    ∧ ((∃ r ∈ recommendations_for ps, r.priority = 3) ↔
      2 < projects_over_budget ps)
    ∧ (recommendations_for ps).Pairwise (fun r s => r.priority < s.priority)
    ∧ (¬ (∃ p ∈ ps, p.health.overall_status = "Critical") →
       ¬ 1 < (atRiskProjects ps).length →
       ¬ 2 < projects_over_budget ps →
       recommendations_for ps = []) := by
  have hc : (∃ p ∈ ps, p.health.overall_status = "Critical") ↔
      ¬ criticalProjects ps = [] := by
    rw [criticalProjects_eq_nil]; exact (not_not).symm
  simp only [recommendations_for, generate_recommendations, hc]
  split_ifs <;> simp_all

/-- The record invariant claimed for every project the data provider serves:
`remaining = total - spent`, the scope item counts sum to at most the
original item count, and the non-variance percentage fields (percent
complete, team utilization) lie in 0–100. -/
def projectRecordInvariant (p : Project) : Prop :=
  p.budget.remaining = p.budget.total - p.budget.spent
  ∧ p.scope.completed_items + p.scope.in_progress_items + p.scope.pending_items
      ≤ p.scope.original_scope_items
  ∧ (0 ≤ p.schedule.percent_complete ∧ p.schedule.percent_complete ≤ 100)
  ∧ (0 ≤ p.team.utilization ∧ p.team.utilization ≤ 100)

instance (p : Project) : Decidable (projectRecordInvariant p) := by
  unfold projectRecordInvariant; infer_instance

/-- C6 counterexample: not every record of `PROJECTS_DATA` satisfies the
claimed invariant — PRJ003's scope counts sum to 22 + 4 + 7 = 33, which
exceeds its 28 original scope items. -/
theorem projects_data_invariant_cex :
    ¬ ∀ p ∈ PROJECTS_DATA, projectRecordInvariant p := by
  intro h
  have h3 := (h prj003 (by simp [PROJECTS_DATA])).2.1
  simp [prj003] at h3

/-- C6 amended: every record of `PROJECTS_DATA` has
`remaining = total - spent` and its percentage fields in 0–100, and the
scope-count sum is at most `original_scope_items` for every project except
PRJ003 (where 22 + 4 + 7 = 33 > 28) and PRJ005 (where 23 + 11 + 8 = 42 >
38), whose sums strictly exceed the original count. -/
theorem projects_data_invariant_amended :
    ∀ p ∈ PROJECTS_DATA,
      p.budget.remaining = p.budget.total - p.budget.spent
      ∧ (0 ≤ p.schedule.percent_complete ∧ p.schedule.percent_complete ≤ 100)
      ∧ (0 ≤ p.team.utilization ∧ p.team.utilization ≤ 100)
      ∧ (p.id ≠ "PRJ003" → p.id ≠ "PRJ005" →
          p.scope.completed_items + p.scope.in_progress_items +
              p.scope.pending_items ≤ p.scope.original_scope_items)
      ∧ (p.id = "PRJ003" ∨ p.id = "PRJ005" →
          p.scope.original_scope_items <
            p.scope.completed_items + p.scope.in_progress_items +
              p.scope.pending_items) := by
  intro p hp
  simp only [PROJECTS_DATA, List.mem_cons, List.not_mem_nil, or_false] at hp
  rcases hp with rfl | rfl | rfl | rfl | rfl <;>
    norm_num [prj001, prj002, prj003, prj004, prj005] <;> decide

/-- Witness for C6 (amended): PRJ001 satisfies the budget-remaining identity
and its scope counts sum within the original count. -/
theorem projects_data_invariant_amended_witness :
    prj001.budget.remaining = prj001.budget.total - prj001.budget.spent
    ∧ prj001.scope.completed_items + prj001.scope.in_progress_items +
        prj001.scope.pending_items ≤ prj001.scope.original_scope_items := by
  have h := projects_data_invariant_amended prj001 (by simp [PROJECTS_DATA])
  exact ⟨h.1, h.2.2.2.1 (by decide) (by decide)⟩

/-- C7: on the five canonical sample projects, the concern identifier emits
first a Critical-severity concern naming exactly "Customer Portal Redesign",
then a High-severity concern naming "Digital Transformation Initiative" and
"Mobile App Development", in that order. -/
theorem key_concerns_canonical :
    (key_concerns_for PROJECTS_DATA).take 2 =
      [{ severity := "Critical"
         concern := "1 Critical Projects Requiring Immediate Attention"
         details := "Projects in critical status: Customer Portal Redesign"
         action := "Executive review and intervention required within 48 hours" },
       { severity := "High"
         concern := "2 Projects At Risk"
         details :=
           "At-risk projects: Digital Transformation Initiative, Mobile App Development"
         action := "Enhanced monitoring and corrective action plans needed" }] := by
  decide

/-- C8: for every project identifier, `get_project` answers with the success
envelope holding a stored project with that exact id whenever one exists, and
with the distinct not-found envelope otherwise; a success never carries a
substituted project. -/
theorem get_project_spec (pid : String) :
    ((∃ p ∈ PROJECTS_DATA, p.id = pid) →
      ∃ p, get_project pid = .success p ∧ p ∈ PROJECTS_DATA ∧ p.id = pid)
    ∧ ((¬ ∃ p ∈ PROJECTS_DATA, p.id = pid) →
      get_project pid = .notFound "Project not found")
    ∧ (∀ p, get_project pid = .success p → p ∈ PROJECTS_DATA ∧ p.id = pid) := by
  refine ⟨?_, ?_, ?_⟩
  · intro h
    have hs : (PROJECTS_DATA.find? (fun p => p.id == pid)).isSome := by
      rw [List.find?_isSome]
      obtain ⟨p, hp, hid⟩ := h
      exact ⟨p, hp, by simpa using hid⟩
    obtain ⟨p, hp⟩ := Option.isSome_iff_exists.mp hs
    exact ⟨p, by simp [get_project, hp], List.mem_of_find?_eq_some hp,
      by simpa using List.find?_some hp⟩
  · intro h
    have hn : PROJECTS_DATA.find? (fun p => p.id == pid) = none := by
      rw [List.find?_eq_none]
      intro p hp
      simpa using fun hid => h ⟨p, hp, hid⟩
    simp [get_project, hn]
  · intro p hp
    unfold get_project at hp
    cases hfind : PROJECTS_DATA.find? (fun q => q.id == pid) with
    | none => rw [hfind] at hp; cases hp
    | some q =>
        rw [hfind] at hp
        cases hp
        exact ⟨List.mem_of_find?_eq_some hfind,
          by simpa using List.find?_some hfind⟩

/-- C9: the concern identifier is monotonic in Critical-status projects: a
collection with none yields no Critical-severity concern, appending one
Critical-status project makes it appear, and removing all Critical-status
projects from any collection makes it absent. -/
theorem key_concerns_critical_monotone (ps : List Project)
    (h : ∀ p ∈ ps, p.health.overall_status ≠ "Critical")
    (q : Project) (hq : q.health.overall_status = "Critical") :
    (∀ c ∈ key_concerns_for ps, c.severity ≠ "Critical")
    ∧ (∃ c ∈ key_concerns_for (ps ++ [q]), c.severity = "Critical")
    ∧ ∀ rs : List Project, ∀ c ∈ key_concerns_for
        (rs.filter (fun p => p.health.overall_status ≠ "Critical")),
        c.severity ≠ "Critical" := by
  have absent : ∀ ts : List Project,
      (∀ p ∈ ts, p.health.overall_status ≠ "Critical") →
      ∀ c ∈ key_concerns_for ts, c.severity ≠ "Critical" := by
    intro ts hts c hc
    have hnil : criticalProjects ts = [] :=
      (criticalProjects_eq_nil ts).mpr (by simpa using hts)
    simp only [key_concerns_for, identify_key_concerns, hnil, if_pos rfl,
      List.nil_append] at hc
    rcases List.mem_append.mp hc with h1 | h1 <;>
      [skip; skip] <;> split_ifs at h1 <;> simp_all
  refine ⟨absent ps h, ?_, ?_⟩
  · have hne : criticalProjects (ps ++ [q]) ≠ [] := by
      intro hnil
      exact ((criticalProjects_eq_nil (ps ++ [q])).mp hnil)
        ⟨q, by simp, hq⟩
    refine ⟨{ severity := "Critical"
              concern := toString (criticalProjects (ps ++ [q])).length ++
                " Critical Projects Requiring Immediate Attention"
              details := "Projects in critical status: " ++ String.intercalate ", "
                ((criticalProjects (ps ++ [q])).map (·.name))
              action :=
                "Executive review and intervention required within 48 hours" },
           ?_, rfl⟩
    simp only [key_concerns_for, identify_key_concerns, if_neg hne]
    simp
  · intro rs
    exact absent _ (by simp)

/-- Witness for C9: the collection holding only PRJ002 (On Track) produces no
Critical-severity concern, and appending PRJ003 (Critical) makes one appear. -/
theorem key_concerns_critical_monotone_witness :
    (∀ c ∈ key_concerns_for [prj002], c.severity ≠ "Critical")
    ∧ (∃ c ∈ key_concerns_for ([prj002] ++ [prj003]), c.severity = "Critical")
    ∧ ∀ rs : List Project, ∀ c ∈ key_concerns_for
        (rs.filter (fun p => p.health.overall_status ≠ "Critical")),
        c.severity ≠ "Critical" :=
  key_concerns_critical_monotone [prj002] (by decide) prj003 (by decide)

/-- A sample project whose schedule variance is three days late: behind
schedule for the data provider's portfolio-health count, but not for the
analyzer's timeline outlier filter. -/
def threeDaysLate : Project :=
  { prj004 with schedule := { prj004.schedule with variance_days := -3 } }

/-- C10: the data provider's `projects_behind` counts projects with schedule
variance strictly below 0, while the portfolio timeline analyzer counts those
strictly below -5; a collection holding a project with variance -3 is counted
by the former and not the latter, so the two counts differ there. -/
theorem behind_schedule_cutoffs :
    (∀ ps : List Project, projects_behind_schedule ps =
      ps.countP (fun p => p.schedule.variance_days < 0))
    ∧ (∀ (ps : List Project) (avg : ℚ),
      (analyze_portfolio_timeline ps avg).projects_behind =
        ps.countP (fun p => p.schedule.variance_days < -5))
    ∧ projects_behind_schedule [threeDaysLate] = 1
    ∧ (analyze_portfolio_timeline [threeDaysLate] 0).projects_behind = 0 := by
  refine ⟨?_, ?_, ?_, ?_⟩
  · intro ps
    simp [projects_behind_schedule, List.countP_eq_length_filter]
  · intro ps avg
    simp [analyze_portfolio_timeline, List.countP_eq_length_filter]
  · norm_num [projects_behind_schedule, threeDaysLate, prj004]
  · norm_num [analyze_portfolio_timeline, threeDaysLate, prj004]

end Clarity
